import Mathlib

/-!
# DocumentRAG — verification of the flattening, search and orchestration layers

A shallow embedding of the Python sources of the DocumentRAG repository
(`flatten_helper.py`, `search_helper.py`, `azure_vector_helper.py`,
`user_query.py`, `main.py`) together with proofs of the specification's
testable properties.

Python's dynamically-typed values are modelled by the inductive type `PyVal`
(JSON-serialisable values with string dictionary keys and integer numerics;
floating-point payloads are outside the model).  Python exceptions are
modelled by `Except String`, with the error string recording the exception
class raised at that point of the source.
-/

namespace DocumentRAG

/-- Model of a Python / JSON value as manipulated by the repository:
`None`, booleans, integers, strings, lists and string-keyed dictionaries
(dictionaries are association lists in insertion order). -/
inductive PyVal where
  | none_ : PyVal
  | bool : Bool → PyVal
  | int : Int → PyVal
  | str : String → PyVal
  | list : List PyVal → PyVal
  | dict : List (String × PyVal) → PyVal
deriving Repr

mutual

/-- Python `repr()` on a `PyVal`.  String quoting is modelled without escape
sequences (the repository never relies on the escaping of quotes inside
reprs). -/
def pyRepr : PyVal → String
  | .none_ => "None"
  | .bool true => "True"
  | .bool false => "False"
  | .int n => toString n
  | .str s => "'" ++ s ++ "'"
  | .list xs => "[" ++ String.intercalate ", " (pyReprList xs) ++ "]"
  | .dict es => "\x7b" ++ String.intercalate ", " (pyReprDict es) ++ "\x7d"

/-- `repr` of the elements of a Python list, in order. -/
def pyReprList : List PyVal → List String
  | [] => []
  | x :: xs => pyRepr x :: pyReprList xs

/-- `repr` of the `'key': value` entries of a Python dict, in order. -/
def pyReprDict : List (String × PyVal) → List String
  | [] => []
  | (k, v) :: es => ("'" ++ k ++ "': " ++ pyRepr v) :: pyReprDict es

end

/-- Python `str()` on a `PyVal` (as used by f-string interpolation):
strings print verbatim, containers print via `repr` of their elements. -/
def pyStr : PyVal → String
  | .str s => s
  | v => pyRepr v

/-- Python truthiness (`bool(v)` / `if v:`). -/
def truthy : PyVal → Bool
  | .none_ => false
  | .bool b => b
  | .int n => n != 0
  | .str s => s != ""
  | .list xs => !xs.isEmpty
  | .dict es => !es.isEmpty

/-- Is the value a Python `str`? -/
def PyVal.isStr : PyVal → Bool
  | .str _ => true
  | _ => false

/-- Is the value a Python `dict`? -/
def PyVal.isDict : PyVal → Bool
  | .dict _ => true
  | _ => false

/-- Lookup in an association list (Python `dict.__getitem__` domain test /
`dict.get` without default): first binding of the key. -/
def dget {α : Type} : List (String × α) → String → Option α
  | [], _ => Option.none
  | (k, v) :: rest, key => if k = key then some v else dget rest key

/-- Python `dict.get(key, default)`. -/
def dgetD (d : List (String × PyVal)) (key : String) (default : PyVal) : PyVal :=
  (dget d key).getD default

/-- Python `d[key] = v`: replace the first binding of `key`, or append a new
binding at the end (insertion order). -/
def dset : List (String × PyVal) → String → PyVal → List (String × PyVal)
  | [], key, v => [(key, v)]
  | (k, w) :: rest, key, v =>
    if k = key then (key, v) :: rest else (k, w) :: dset rest key v

/-! ## `flatten_helper.py` -/

/-- `flatten_checkbox_field`: `'FieldName: Checked'` / `'FieldName: Unchecked'`. -/
def flatten_checkbox_field (field_name : String) (value : Bool) : String :=
  let status := if value then "Checked" else "Unchecked"
  field_name ++ ": " ++ status

/-- `flatten_text_field`: `'FieldName: SomeValue'`. -/
def flatten_text_field (field_name : String) (value : String) : String :=
  field_name ++ ": " ++ value

/-- `flatten_number_field`: `'FieldName: 123'` (value interpolated by `str`). -/
def flatten_number_field (field_name : String) (value : PyVal) : String :=
  field_name ++ ": " ++ pyStr value

/-- `flatten_password_field`: the value is never taken; the line is redacted. -/
def flatten_password_field (field_name : String) : String :=
  field_name ++ ": [REDACTED]"

/-- `flatten_date_field`: stores the (stringified) value as-is. -/
def flatten_date_field (field_name : String) (value : String) : String :=
  field_name ++ ": " ++ value

/-- The `parts` list of `flatten_address_field`: the five address
components, each defaulting to the empty string. -/
def addressParts (address_value : List (String × PyVal)) : List PyVal :=
  [dgetD address_value "line1" (.str ""),
   dgetD address_value "line2" (.str ""),
   dgetD address_value "city" (.str ""),
   dgetD address_value "state" (.str ""),
   dgetD address_value "zip" (.str "")]

/-- `flatten_address_field`: joins the truthy components with `', '`.
Python's `', '.join` raises `TypeError` when a kept component is not a
`str`, which the source does not guard against; the `Except` error records
that exception. -/
def flatten_address_field (field_name : String)
    (address_value : List (String × PyVal)) : Except String String :=
  let kept := (addressParts address_value).filter truthy
  if kept.all PyVal.isStr then
    .ok (field_name ++ ": " ++ String.intercalate ", " (kept.map pyStr))
  else
    .error "TypeError: sequence item: expected str instance"

/-- The indented `'  Row{i}: [k=v, ...]'` lines of `flatten_table_field`,
numbering from `i`.  A row that is not a dict makes Python's `row.items()`
raise `AttributeError`. -/
def tableRowLines : Nat → List PyVal → Except String (List String)
  | _, [] => .ok []
  | i, row :: rest =>
    match row with
    | .dict es =>
      match tableRowLines (i + 1) rest with
      | .error e => .error e
      | .ok restLines =>
        .ok (("  Row" ++ toString i ++ ": [" ++
          String.intercalate ", " (es.map (fun e => e.1 ++ "=" ++ pyStr e.2)) ++
          "]") :: restLines)
    | _ => .error "AttributeError: object has no attribute items"

/-- `flatten_table_field`: header line `'{name}:'` followed by one indented
row line per row, numbered from 1 in input order. -/
def flatten_table_field (field_name : String) (rows : List PyVal) :
    Except String String :=
  match tableRowLines 1 rows with
  | .error e => .error e
  | .ok rowLines => .ok (String.intercalate "\n" ((field_name ++ ":") :: rowLines))

/-- `flatten_signature_field`: placeholder line, optionally suffixed with the
timestamp and file reference when truthy. -/
def flatten_signature_field (field_name : String)
    (value : List (String × PyVal)) : String :=
  let ts := dgetD value "timestamp" (.str "")
  let file_ref := dgetD value "fileRef" (.str "")
  let text := field_name ++ ": Signature provided"
  let text := if truthy ts then text ++ " at " ++ pyStr ts else text
  if truthy file_ref then text ++ ", file: " ++ pyStr file_ref else text

/-- `flatten_location_field`: `'(Lat=…, Lon=…)'` when both `lat` and `lon`
are present and not `None`, else the fallback placeholder. -/
def flatten_location_field (field_name : String)
    (value : List (String × PyVal)) : String :=
  let lat := dgetD value "lat" .none_
  let lon := dgetD value "lon" .none_
  match lat, lon with
  | .none_, _ => field_name ++ ": [Location data]"
  | _, .none_ => field_name ++ ": [Location data]"
  | lat, lon => field_name ++ ": (Lat=" ++ pyStr lat ++ ", Lon=" ++ pyStr lon ++ ")"

/-- Python's `field_type == "tag"` comparison: true exactly for the string
equal to the tag (a non-string value compares unequal to every tag). -/
def isTag (v : PyVal) (tag : String) : Bool :=
  match v with
  | .str s => s == tag
  | _ => false

/-- `flatten_field`: dispatch on the `fieldType` tag, mirroring the source's
`if/elif` chain of string comparisons; a non-string tag or an unknown tag
falls through to the raw interpolation fallback. -/
def flatten_field (field_data : List (String × PyVal)) : Except String String :=
  let field_type := dgetD field_data "fieldType" .none_
  let field_name := pyStr (dgetD field_data "fieldName" (.str "UnknownField"))
  let value := dgetD field_data "value" .none_
  if isTag field_type "checkbox" then
    .ok (flatten_checkbox_field field_name (truthy value))
  else if isTag field_type "text" then
    .ok (flatten_text_field field_name (pyStr value))
  else if isTag field_type "number" then
    .ok (flatten_number_field field_name value)
  else if isTag field_type "password" then
    .ok (flatten_password_field field_name)
  else if isTag field_type "date" then
    .ok (flatten_date_field field_name (pyStr value))
  else if isTag field_type "address" then
    match value with
    | .dict es => flatten_address_field field_name es
    | _ => .ok (field_name ++ ": [Invalid address data]")
  else if isTag field_type "table" then
    match value with
    | .list rows => flatten_table_field field_name rows
    | _ => .ok (field_name ++ ": [Invalid table data]")
  else if isTag field_type "signature" then
    match value with
    | .dict es => .ok (flatten_signature_field field_name es)
    | _ => .ok (field_name ++ ": [Signature provided]")
  else if isTag field_type "location" then
    match value with
    | .dict es => .ok (flatten_location_field field_name es)
    | _ => .ok (field_name ++ ": [Location data]")
  else
    .ok (field_name ++ ": " ++ pyStr value)

/-- Python iteration `for x in v` over an arbitrary value: lists yield their
elements, strings yield their characters (as 1-character strings), dicts
yield their keys; other values raise `TypeError`. -/
def pyIter : PyVal → Except String (List PyVal)
  | .list xs => .ok xs
  | .str s => .ok (s.data.map (fun c => .str (String.mk [c])))
  | .dict es => .ok (es.map (fun e => .str e.1))
  | _ => .error "TypeError: object is not iterable"

/-- The body of `flatten_submission`'s field loop: each entry is flattened
(with the two-space indent applied) in order; a non-dict entry makes
`field_entry.get` raise `AttributeError`; an exception aborts the loop. -/
def flattenEntries : List PyVal → Except String (List String)
  | [] => .ok []
  | e :: rest =>
    match e with
    | .dict fd =>
      match flatten_field fd with
      | .error err => .error err
      | .ok s =>
        match flattenEntries rest with
        | .error err => .error err
        | .ok restLines => .ok (("  " ++ s) :: restLines)
    | _ => .error "AttributeError: object has no attribute get"

/-- `flatten_submission`: four header lines from the top-level fields, the
`Field Values:` line, then one two-space-indented flattened entry per field
record, all joined by newlines. -/
def flatten_submission (submission_doc : List (String × PyVal)) :
    Except String String :=
  let headers := [
    "Submission (Result ID: " ++
      pyStr (dgetD submission_doc "_id" (.str "")) ++ ")",
    "For Document: " ++ pyStr (dgetD submission_doc "document_id" (.str "")) ++
      " in Folder: " ++ pyStr (dgetD submission_doc "folder_id" (.str "")) ++ ".",
    "Owned by user: " ++ pyStr (dgetD submission_doc "user_id" (.str "")) ++ ".",
    "Timestamp: " ++ pyStr (dgetD submission_doc "timestamp" (.str "")) ++ "."]
  match pyIter (dgetD submission_doc "fieldValues" (.list [])) with
  | .error e => .error e
  | .ok entries =>
    match flattenEntries entries with
    | .error e => .error e
    | .ok fieldLines =>
      .ok (String.intercalate "\n" (headers ++ ["Field Values:"] ++ fieldLines))

/-! ## `search_helper.py` -/

/-- A value of the JSON request body sent by `SearchHelper.vector_search`:
strings, naturals, booleans, embedding vectors (sequences of rationals,
modelling the float coordinates that are passed through opaquely), arrays
and objects. -/
inductive SVal where
  | str : String → SVal
  | nat : Nat → SVal
  | bool : Bool → SVal
  | vector : List ℚ → SVal
  | arr : List SVal → SVal
  | obj : List (String × SVal) → SVal

/-- The JSON request body built by `SearchHelper.vector_search` (as an
insertion-ordered association list): the wildcard search, the vector query
clause, the field selection and the top bound, with the `filter` key added
at the end exactly when `user_id` is truthy (a non-`None`, non-empty
string). -/
def vector_search_body (embedding : List ℚ) (top_k : Nat)
    (user_id : Option String) : List (String × SVal) :=
  let base := [
    ("search", SVal.str "*"),
    ("vectorQueries", SVal.arr [SVal.obj [
      ("kind", SVal.str "vector"),
      ("vector", SVal.vector embedding),
      ("fields", SVal.str "contentVector"),
      ("k", SVal.nat top_k),
      ("exhaustive", SVal.bool false)]]),
    ("select", SVal.str "id, userId, folderId, documentId, type, content, metadata"),
    ("top", SVal.nat top_k)]
  match user_id with
  | some uid =>
    if uid = "" then base
    else base ++ [("filter", SVal.str ("userId eq '" ++ uid ++ "'"))]
  | Option.none => base

/-! ## `azure_vector_helper.py` -/

/-- An HTTP response as `delete_index` observes it: the status code, the
JSON-decoded body (`Option.none` when `response.json()` raises
`JSONDecodeError`) and the raw body text. -/
structure Response where
  status : Nat
  body : Option PyVal
  text : String

/-- Python `v.get(key, default)`: raises `AttributeError` when `v` is not a
dict. -/
def pyGet (v : PyVal) (key : String) (default : PyVal) : Except String PyVal :=
  match v with
  | .dict es => .ok (dgetD es key default)
  | _ => .error "AttributeError: object has no attribute get"

/-- The server error message extracted by `delete_index`'s failure branch:
`response.json().get(\x22error\x22, \x7b\x7d).get(\x22message\x22, response.text)`, falling back to
`response.text` when the body fails to decode. -/
def delete_error_message (r : Response) : Except String String :=
  match r.body with
  | Option.none => .ok r.text
  | some j =>
    match pyGet j "error" (.dict []) with
    | .error exc => .error exc
    | .ok e =>
      match pyGet e "message" (.str r.text) with
      | .error exc => .error exc
      | .ok m => .ok (pyStr m)

/-- The three outcomes of `AzureSearchRESTHelper.delete_index` that do not
raise: a successful deletion (204) and the warning-only "already absent"
path (404). -/
inductive DeleteOutcome where
  | deleted : DeleteOutcome
  | alreadyAbsent : DeleteOutcome
deriving Repr, DecidableEq

/-- `AzureSearchRESTHelper.delete_index`, as a function of the index name
and the HTTP response: 204 succeeds, 404 logs a warning and returns
normally, any other status raises with the extracted server message. -/
def delete_index (index_name : String) (r : Response) :
    Except String DeleteOutcome :=
  if r.status = 204 then .ok .deleted
  else if r.status = 404 then .ok .alreadyAbsent
  else
    match delete_error_message r with
    | .ok msg =>
      .error ("Failed to delete index '" ++ index_name ++ "': " ++ msg)
    | .error e => .error e

/-! ## `user_query.py` and `main.py`: file loaders and the orchestrator -/

/-- The state of a JSON file on disk: absent, present but not valid JSON, or
present with the given decoded value.  `json.dump` followed by `json.load`
is the identity on the values of `PyVal` (all of which are
JSON-serialisable), so the model stores decoded values directly. -/
inductive JsonFile where
  | missing : JsonFile
  | malformed : JsonFile
  | content : PyVal → JsonFile

/-- The state of a plain-text file on disk. -/
inductive TextFile where
  | missing : TextFile
  | text : String → TextFile

/-- The errors raised by the file loaders: `FileNotFoundError` (whose
message names the offending path) and `json.JSONDecodeError` (whose message
does not). -/
inductive PyFileError where
  | fileNotFound : String → PyFileError
  | jsonDecode : PyFileError
deriving Repr, DecidableEq

/-- `load_submission` (`main.py`): re-raises `FileNotFoundError` on a
missing file and `JSONDecodeError` on malformed JSON; returns the decoded
document otherwise. -/
def load_submission (file_path : String) (f : JsonFile) :
    Except PyFileError PyVal :=
  match f with
  | .missing => .error (.fileNotFound file_path)
  | .malformed => .error .jsonDecode
  | .content j => .ok j

/-- `get_user_query` (`user_query.py`): raises `FileNotFoundError` with a
message naming the path on a missing file; otherwise returns the stripped
file content. -/
def get_user_query (file_path : String) (f : TextFile) :
    Except String String :=
  match f with
  | .missing => .error ("Query file '" ++ file_path ++ "' not found.")
  | .text s => .ok s.trim

/-- The history-file path constant shared by the loader and the saver. -/
def CONVERSATION_HISTORY_FILE : String := "RAG/conversation_history.json"

/-- `load_conversation_history` (`user_query.py`): returns `[]` when the
file is absent, and — because the whole body is wrapped in
`except Exception` — also returns `[]` when the JSON is malformed; a
decodable file returns its decoded value unvalidated. -/
def load_conversation_history (fs : String → JsonFile) : PyVal :=
  match fs CONVERSATION_HISTORY_FILE with
  | .missing => .list []
  | .malformed => .list []
  | .content j => j

/-- `save_conversation_history` (`user_query.py`): overwrites the history
file with the JSON dump of the message list. -/
def save_conversation_history (history : List PyVal) (fs : String → JsonFile) :
    String → JsonFile :=
  fun p => if p = CONVERSATION_HISTORY_FILE then .content (.list history) else fs p

/-- A `\x7b"role": …, "content": …\x7d` message dictionary. -/
def mkMessage (role content : String) : PyVal :=
  .dict [("role", .str role), ("content", .str content)]

/-- `process_results_with_openai_chat` (`user_query.py`): appends the user
turn to the history, then either appends the assistant answer (successful
chat completion) or — any exception inside the `try` being caught — returns
the apology string with only the user turn appended.  The outcome of the
external chat-completion call (answer already extracted and stripped) is an
oracle parameter.  Returns the answer string and the updated history. -/
def process_results_with_openai_chat (user_query : String)
    (conversation_history : List PyVal) (chat : Except String String) :
    String × List PyVal :=
  let hist := conversation_history ++ [mkMessage "user" user_query]
  match chat with
  | .ok answer => (answer, hist ++ [mkMessage "assistant" answer])
  | .error _ => ("I'm sorry, I couldn't generate a response at this time.", hist)

/-- The checks performed on one retrieved document by the display loop of
`main` (`user_query.py`), which runs outside any `try`: subscripting a
non-dict raises `TypeError`, and each of `id`, `type`, `content` and
`metadata` must be present or `doc[...]` raises `KeyError`. -/
def checkDoc (d : PyVal) : Except String PyVal :=
  match d with
  | .dict es =>
    match dget es "id", dget es "type", dget es "content", dget es "metadata" with
    | some _, some _, some _, some _ => .ok d
    | _, _, _, _ => .error "KeyError"
  | _ => .error "TypeError: object is not subscriptable"

/-- The per-document checks of the display loop, in order, propagating the
first exception. -/
def checkDocs : List PyVal → Except String (List PyVal)
  | [] => .ok []
  | d :: rest =>
    match checkDoc d with
    | .error e => .error e
    | .ok d2 =>
      match checkDocs rest with
      | .error e => .error e
      | .ok rest2 => .ok (d2 :: rest2)

/-- The display loop of `main` (`user_query.py`): iterates the retrieved
`documents` value and checks every document; any exception here is uncaught
and crashes the process. -/
def displayDocs (documents : PyVal) : Except String (List PyVal) :=
  match pyIter documents with
  | .error e => .error e
  | .ok docs => checkDocs docs

/-- The outcomes of the fallible external steps of one orchestrator
invocation (`main` of `user_query.py`): loading the query file, the
embedding call, the vector-search call, and the chat completion. -/
structure RunSteps where
  query : Except String String
  embedding : Except String (List ℚ)
  search : Except String PyVal
  chat : Except String String

/-- `main` (`user_query.py`): the strictly linear orchestration sequence.
Returns `some h` when `save_conversation_history` is reached with history
`h`, and `Option.none` when the invocation ends (early `return` or uncaught
crash) without saving. -/
def user_query_main (steps : RunSteps) (stored : List PyVal) :
    Option (List PyVal) :=
  match steps.query with
  | .error _ => Option.none
  | .ok user_query =>
  match steps.embedding with
  | .error _ => Option.none
  | .ok _ =>
  match steps.search with
  | .error _ => Option.none
  | .ok search_results =>
  match search_results with
  | .dict es =>
    let documents := dgetD es "value" (.list [])
    if !truthy documents then Option.none
    else
      match displayDocs documents with
      | .error _ => Option.none
      | .ok _ =>
        let (_answer, hist) :=
          process_results_with_openai_chat user_query stored steps.chat
        some hist
  | _ => Option.none

/-! ## Auxiliary definitions used by the statements below -/

/-- The safety precondition under which `flatten_field` provably raises no
exception: every truthy address component is a string (so `', '.join`
succeeds) and every table row is a dict (so `row.items()` succeeds).  All
other branches of the dispatch are total. -/
def fieldOk (field_data : List (String × PyVal)) : Bool :=
  let field_type := dgetD field_data "fieldType" .none_
  let value := dgetD field_data "value" .none_
  if isTag field_type "address" then
    match value with
    | .dict es => (addressParts es).all (fun p => !truthy p || p.isStr)
    | _ => true
  else if isTag field_type "table" then
    match value with
    | .list rows => rows.all PyVal.isDict
    | _ => true
  else true

/-- Flatten a list of field records in order, propagating the first
exception (the unindented counterpart of `flattenEntries`). -/
def flattenFields : List (List (String × PyVal)) → Except String (List String)
  | [] => .ok []
  | fd :: rest =>
    match flatten_field fd with
    | .error e => .error e
    | .ok s =>
      match flattenFields rest with
      | .error e => .error e
      | .ok restS => .ok (s :: restS)

/-- The indented row line of `flatten_table_field` for the (1-based index,
row) pair `p`. -/
def tableLine (p : Nat × List (String × PyVal)) : String :=
  "  Row" ++ toString p.1 ++ ": [" ++
    String.intercalate ", " (p.2.map (fun kv => kv.1 ++ "=" ++ pyStr kv.2)) ++ "]"

/-- Read a `role`/`content` message dictionary back as a pair of strings
(the shape written by the orchestrator). -/
def decodeMessage : PyVal → Option (String × String)
  | .dict [("role", .str r), ("content", .str c)] => some (r, c)
  | _ => Option.none

/-- Decode a list of message dictionaries, failing on any other shape. -/
def decodeHistoryList : List PyVal → Option (List (String × String))
  | [] => some []
  | v :: vs =>
    match decodeMessage v with
    | Option.none => Option.none
    | some m =>
      match decodeHistoryList vs with
      | Option.none => Option.none
      | some ms => some (m :: ms)

/-- Decode a stored conversation-history value back to the ordered list of
(role, content) pairs. -/
def decodeHistory : PyVal → Option (List (String × String))
  | .list vs => decodeHistoryList vs
  | _ => Option.none

/-! ## Helper lemmas -/

theorem dget_dset_ne (d : List (String × PyVal)) (key key' : String) (v : PyVal)
    (h : key ≠ key') : dget (dset d key' v) key = dget d key := by
  induction d with
  | nil => simp [dset, dget, h, Ne.symm h]
  | cons e rest ih =>
    obtain ⟨k, w⟩ := e
    by_cases hk : k = key'
    · subst hk
      simp [dset, dget, Ne.symm h]
    · simp [dset, dget, hk, ih]

theorem flatten_field_password (fd : List (String × PyVal))
    (h : dget fd "fieldType" = some (PyVal.str "password")) :
    flatten_field fd =
      .ok (pyStr (dgetD fd "fieldName" (.str "UnknownField")) ++ ": [REDACTED]") := by
  simp [flatten_field, dgetD, h, isTag, flatten_password_field]

theorem flatten_field_checkbox (fd : List (String × PyVal))
    (h : dget fd "fieldType" = some (PyVal.str "checkbox")) :
    flatten_field fd =
      .ok (pyStr (dgetD fd "fieldName" (.str "UnknownField")) ++ ": " ++
        (if truthy (dgetD fd "value" .none_) then "Checked" else "Unchecked")) := by
  simp [flatten_field, dgetD, h, isTag, flatten_checkbox_field]

theorem all_isStr_filter_truthy (l : List PyVal)
    (h : (l.all fun p => !truthy p || p.isStr) = true) :
    ((l.filter truthy).all PyVal.isStr) = true := by
  simp only [List.all_eq_true, List.mem_filter] at *
  rintro p ⟨hmem, htr⟩
  have hp := h p hmem
  simpa [htr] using hp

theorem tableRowLines_isOk (i : Nat) (rows : List PyVal)
    (h : rows.all PyVal.isDict = true) : (tableRowLines i rows).isOk = true := by
  induction rows generalizing i with
  | nil => rfl
  | cons r rest ih =>
    simp only [List.all_cons, Bool.and_eq_true] at h
    obtain ⟨hr, hrest⟩ := h
    have hih := ih (i + 1) hrest
    cases r with
    | dict es =>
      simp only [tableRowLines]
      cases hls : tableRowLines (i + 1) rest with
      | ok ls => rfl
      | error e => rw [hls] at hih; exact (Bool.false_ne_true hih).elim
    | none_ => simp [PyVal.isDict] at hr
    | bool b => simp [PyVal.isDict] at hr
    | int n => simp [PyVal.isDict] at hr
    | str s => simp [PyVal.isDict] at hr
    | list xs => simp [PyVal.isDict] at hr

theorem tableRowLines_map_dict (rows : List (List (String × PyVal))) (i : Nat) :
    tableRowLines i (rows.map PyVal.dict) =
      .ok ((rows.enumFrom i).map tableLine) := by
  induction rows generalizing i with
  | nil => rfl
  | cons r rest ih =>
    simp only [List.map_cons, tableRowLines, ih (i + 1), List.enumFrom, tableLine]

theorem flattenEntries_map_dict (entries : List (List (String × PyVal)))
    (flats : List String) (h : flattenFields entries = .ok flats) :
    flattenEntries (entries.map PyVal.dict) =
      .ok (flats.map (fun s => "  " ++ s)) := by
  induction entries generalizing flats with
  | nil =>
    simp only [flattenFields] at h
    cases h
    rfl
  | cons fd rest ih =>
    simp only [flattenFields] at h
    cases hfd : flatten_field fd with
    | error e => rw [hfd] at h; cases h
    | ok s =>
      rw [hfd] at h
      cases hrest : flattenFields rest with
      | error e => rw [hrest] at h; simp at h
      | ok rs =>
        rw [hrest] at h
        simp only at h
        cases h
        simp only [List.map_cons, flattenEntries, hfd, ih rs hrest]

/-! ## Claim theorems -/

/-- Claim C1: for every field record tagged `password`, the flattened output
is exactly `'\x7bfieldName\x7d: [REDACTED]'`, and the output is unchanged when the
field's `value` entry is replaced by any other value — so the original value
never influences (and in particular never appears in) the output. -/
theorem C1_password_redaction (fd : List (String × PyVal))
    (h : dget fd "fieldType" = some (PyVal.str "password")) :
    flatten_field fd =
      .ok (pyStr (dgetD fd "fieldName" (.str "UnknownField")) ++ ": [REDACTED]")
    ∧ ∀ v, flatten_field (dset fd "value" v) = flatten_field fd := by
  refine ⟨flatten_field_password fd h, fun v => ?_⟩
  have h1 : dget (dset fd "value" v) "fieldType" = some (PyVal.str "password") := by
    rw [dget_dset_ne _ _ _ _ (by decide)]
    exact h
  rw [flatten_field_password _ h1, flatten_field_password fd h]
  have h2 : dget (dset fd "value" v) "fieldName" = dget fd "fieldName" :=
    dget_dset_ne _ _ _ _ (by decide)
  rw [dgetD, dgetD, h2]

/-- Witness for C1 at a concrete password field: the output is redacted and
identical across two different password values. -/
theorem C1_password_redaction_witness :
    flatten_field [("fieldType", PyVal.str "password"), ("fieldName", PyVal.str "Pin"),
        ("value", PyVal.str "hunter2")] = .ok "Pin: [REDACTED]"
    ∧ flatten_field [("fieldType", PyVal.str "password"), ("fieldName", PyVal.str "Pin"),
        ("value", PyVal.str "s3cret")]
      = flatten_field [("fieldType", PyVal.str "password"), ("fieldName", PyVal.str "Pin"),
        ("value", PyVal.str "hunter2")] := by
  have h := C1_password_redaction [("fieldType", PyVal.str "password"),
    ("fieldName", PyVal.str "Pin"), ("value", PyVal.str "hunter2")] rfl
  exact ⟨h.1, h.2 (PyVal.str "s3cret")⟩

/-- Claim C3: for every field record tagged `checkbox`, the flattened string
is `'\x7bfieldName\x7d: Checked'` when the value is truthy and
`'\x7bfieldName\x7d: Unchecked'` otherwise, and accordingly ends in exactly
`Checked` / `Unchecked`. -/
theorem C3_checkbox_flattening (fd : List (String × PyVal))
    (h : dget fd "fieldType" = some (PyVal.str "checkbox")) :
    flatten_field fd =
      .ok (pyStr (dgetD fd "fieldName" (.str "UnknownField")) ++ ": " ++
        (if truthy (dgetD fd "value" .none_) then "Checked" else "Unchecked"))
    ∧ (truthy (dgetD fd "value" .none_) = true →
        ∃ p, flatten_field fd = .ok (p ++ "Checked"))
    ∧ (truthy (dgetD fd "value" .none_) = false →
        ∃ p, flatten_field fd = .ok (p ++ "Unchecked")) := by
  have base := flatten_field_checkbox fd h
  refine ⟨base, fun ht => ?_, fun hf => ?_⟩
  · exact ⟨pyStr (dgetD fd "fieldName" (.str "UnknownField")) ++ ": ", by rw [base, ht, if_pos rfl]⟩
  · exact ⟨pyStr (dgetD fd "fieldName" (.str "UnknownField")) ++ ": ", by rw [base, hf]; simp⟩

/-- Witness for C3 at concrete checked and unchecked checkbox fields. -/
theorem C3_checkbox_flattening_witness :
    flatten_field [("fieldType", PyVal.str "checkbox"), ("fieldName", PyVal.str "Opt"),
        ("value", PyVal.bool true)] = .ok "Opt: Checked"
    ∧ flatten_field [("fieldType", PyVal.str "checkbox"), ("fieldName", PyVal.str "Opt"),
        ("value", PyVal.bool false)] = .ok "Opt: Unchecked" := by
  have h1 := (C3_checkbox_flattening [("fieldType", PyVal.str "checkbox"),
    ("fieldName", PyVal.str "Opt"), ("value", PyVal.bool true)] rfl).1
  have h2 := (C3_checkbox_flattening [("fieldType", PyVal.str "checkbox"),
    ("fieldName", PyVal.str "Opt"), ("value", PyVal.bool false)] rfl).1
  exact ⟨h1, h2⟩

/-- Counterexample to claim C2 ("flatten_field … never raises an
exception, for any value shape including lists with arbitrary element
types"): a `table` field whose row list contains the integer `1` makes
`row.items()` raise `AttributeError`. -/
theorem C2_flatten_field_total_counterexample :
    flatten_field [("fieldType", PyVal.str "table"), ("fieldName", PyVal.str "T"),
        ("value", PyVal.list [PyVal.int 1])]
      = Except.error "AttributeError: object has no attribute items" := rfl

/-- Claim C2 (amended): `flatten_field` terminates and returns a string for
every field record in which every truthy address-component value is a
string and every table row is a dictionary (the `fieldOk` precondition);
inputs outside this precondition can raise `TypeError` / `AttributeError`. -/
theorem C2_flatten_field_total (fd : List (String × PyVal))
    (h : fieldOk fd = true) : (flatten_field fd).isOk = true := by
  simp only [fieldOk] at h
  simp only [flatten_field]
  by_cases h1 : isTag (dgetD fd "fieldType" PyVal.none_) "checkbox" = true
  · rw [if_pos h1]; rfl
  rw [if_neg h1]
  by_cases h2 : isTag (dgetD fd "fieldType" PyVal.none_) "text" = true
  · rw [if_pos h2]; rfl
  rw [if_neg h2]
  by_cases h3 : isTag (dgetD fd "fieldType" PyVal.none_) "number" = true
  · rw [if_pos h3]; rfl
  rw [if_neg h3]
  by_cases h4 : isTag (dgetD fd "fieldType" PyVal.none_) "password" = true
  · rw [if_pos h4]; rfl
  rw [if_neg h4]
  by_cases h5 : isTag (dgetD fd "fieldType" PyVal.none_) "date" = true
  · rw [if_pos h5]; rfl
  rw [if_neg h5]
  by_cases h6 : isTag (dgetD fd "fieldType" PyVal.none_) "address" = true
  · rw [if_pos h6]
    rw [if_pos h6] at h
    cases hval : dgetD fd "value" PyVal.none_ with
    | dict es =>
      rw [hval] at h
      simp only at h
      simp only [flatten_address_field]
      rw [if_pos (all_isStr_filter_truthy _ h)]
      rfl
    | none_ => rfl
    | bool b => rfl
    | int n => rfl
    | str s => rfl
    | list xs => rfl
  rw [if_neg h6]
  rw [if_neg h6] at h
  by_cases h7 : isTag (dgetD fd "fieldType" PyVal.none_) "table" = true
  · rw [if_pos h7]
    rw [if_pos h7] at h
    cases hval : dgetD fd "value" PyVal.none_ with
    | list rows =>
      rw [hval] at h
      simp only at h
      have hok := tableRowLines_isOk 1 rows h
      simp only [flatten_table_field]
      cases hls : tableRowLines 1 rows with
      | ok ls => rfl
      | error e => rw [hls] at hok; exact (Bool.false_ne_true hok).elim
    | none_ => rfl
    | bool b => rfl
    | int n => rfl
    | str s => rfl
    | dict es => rfl
  rw [if_neg h7]
  by_cases h8 : isTag (dgetD fd "fieldType" PyVal.none_) "signature" = true
  · rw [if_pos h8]
    cases dgetD fd "value" PyVal.none_ <;> rfl
  rw [if_neg h8]
  by_cases h9 : isTag (dgetD fd "fieldType" PyVal.none_) "location" = true
  · rw [if_pos h9]
    cases dgetD fd "value" PyVal.none_ <;> rfl
  rw [if_neg h9]
  rfl

/-- Witness for the amended C2 at a concrete, well-formed address field. -/
theorem C2_flatten_field_total_witness :
    fieldOk [("fieldType", PyVal.str "address"), ("fieldName", PyVal.str "A"),
        ("value", PyVal.dict [("line1", PyVal.str "123 Main St"),
          ("city", PyVal.str "Springfield"), ("state", PyVal.str "IL")])] = true
    ∧ (flatten_field [("fieldType", PyVal.str "address"), ("fieldName", PyVal.str "A"),
        ("value", PyVal.dict [("line1", PyVal.str "123 Main St"),
          ("city", PyVal.str "Springfield"), ("state", PyVal.str "IL")])]).isOk = true :=
  ⟨rfl, C2_flatten_field_total _ rfl⟩

/-- Claim C4: `flatten_table_field` on any field name and list of rows
yields exactly the header line `'\x7bfieldName\x7d:'` followed by one two-space
indented `'  Row\x7bi\x7d: [k=v, ...]'` line per row, numbered from 1 in input
order; the number of row lines equals the number of rows. -/
theorem C4_flatten_table_field_shape (field_name : String)
    (rows : List (List (String × PyVal))) :
    flatten_table_field field_name (rows.map PyVal.dict) =
      .ok (String.intercalate "\n"
        ((field_name ++ ":") :: (rows.enumFrom 1).map tableLine))
    ∧ ((rows.enumFrom 1).map tableLine).length = rows.length := by
  constructor
  · simp only [flatten_table_field, tableRowLines_map_dict]
  · simp

/-- Counterexample to claim C5 ("for every submission document,
flatten_submission returns a text block …"): a submission whose single
field record is an address with a truthy non-string component makes
`flatten_submission` raise instead of returning a text block. -/
theorem C5_flatten_submission_counterexample :
    flatten_submission [("fieldValues", PyVal.list [PyVal.dict
        [("fieldType", PyVal.str "address"), ("fieldName", PyVal.str "A"),
         ("value", PyVal.dict [("line1", PyVal.int 5)])]])]
      = Except.error "TypeError: sequence item: expected str instance" := rfl

/-- Claim C5 (amended): for every submission document whose field list is a
list of field records that all flatten without raising, the output is
exactly the four header lines (result id; document and folder id; owner;
timestamp) in that order, then `Field Values:`, then one two-space-indented
flattened entry per field record in field-list order; when some field's
flattening raises, `flatten_submission` propagates the exception instead of
returning a text block. -/
theorem C5_flatten_submission_structure (doc : List (String × PyVal))
    (entries : List (List (String × PyVal))) (flats : List String)
    (hfv : dget doc "fieldValues" = some (.list (entries.map PyVal.dict)))
    (hok : flattenFields entries = .ok flats) :
    flatten_submission doc = .ok (String.intercalate "\n"
      (["Submission (Result ID: " ++ pyStr (dgetD doc "_id" (.str "")) ++ ")",
        "For Document: " ++ pyStr (dgetD doc "document_id" (.str "")) ++
          " in Folder: " ++ pyStr (dgetD doc "folder_id" (.str "")) ++ ".",
        "Owned by user: " ++ pyStr (dgetD doc "user_id" (.str "")) ++ ".",
        "Timestamp: " ++ pyStr (dgetD doc "timestamp" (.str "")) ++ "."] ++
       ["Field Values:"] ++ flats.map (fun s => "  " ++ s))) := by
  have hfv' : dgetD doc "fieldValues" (.list []) = .list (entries.map PyVal.dict) := by
    rw [dgetD, hfv]; rfl
  simp only [flatten_submission, hfv', pyIter,
    flattenEntries_map_dict entries flats hok]

/-- Witness for the amended C5 at a concrete one-field submission. -/
theorem C5_flatten_submission_structure_witness :
    dget [("_id", PyVal.str "r1"), ("user_id", PyVal.str "u1"),
        ("folder_id", PyVal.str "f1"), ("document_id", PyVal.str "d1"),
        ("timestamp", PyVal.str "t1"),
        ("fieldValues", PyVal.list [PyVal.dict [("fieldType", PyVal.str "text"),
          ("fieldName", PyVal.str "FirstName"), ("value", PyVal.str "Alice")]])]
        "fieldValues"
      = some (.list ([[("fieldType", PyVal.str "text"),
          ("fieldName", PyVal.str "FirstName"),
          ("value", PyVal.str "Alice")]].map PyVal.dict))
    ∧ flattenFields [[("fieldType", PyVal.str "text"),
        ("fieldName", PyVal.str "FirstName"), ("value", PyVal.str "Alice")]]
      = .ok ["FirstName: Alice"]
    ∧ flatten_submission [("_id", PyVal.str "r1"), ("user_id", PyVal.str "u1"),
        ("folder_id", PyVal.str "f1"), ("document_id", PyVal.str "d1"),
        ("timestamp", PyVal.str "t1"),
        ("fieldValues", PyVal.list [PyVal.dict [("fieldType", PyVal.str "text"),
          ("fieldName", PyVal.str "FirstName"), ("value", PyVal.str "Alice")]])]
      = .ok ("Submission (Result ID: r1)\nFor Document: d1 in Folder: f1.\n" ++
          "Owned by user: u1.\nTimestamp: t1.\nField Values:\n  FirstName: Alice") :=
  ⟨rfl, rfl, by
    have h := C5_flatten_submission_structure
      [("_id", PyVal.str "r1"), ("user_id", PyVal.str "u1"),
        ("folder_id", PyVal.str "f1"), ("document_id", PyVal.str "d1"),
        ("timestamp", PyVal.str "t1"),
        ("fieldValues", PyVal.list [PyVal.dict [("fieldType", PyVal.str "text"),
          ("fieldName", PyVal.str "FirstName"), ("value", PyVal.str "Alice")]])]
      [[("fieldType", PyVal.str "text"), ("fieldName", PyVal.str "FirstName"),
        ("value", PyVal.str "Alice")]]
      ["FirstName: Alice"] rfl rfl
    exact h⟩

/-- Claim C6: `delete_index` succeeds on HTTP 204; treats HTTP 404 as a
non-fatal already-absent outcome (returned normally, logged as a warning);
and raises for every other status — with the exception carrying the
server-provided error message whenever the extraction of that message
itself succeeds. -/
theorem C6_delete_index_status_handling (name : String) (r : Response) :
    (r.status = 204 → delete_index name r = .ok .deleted)
    ∧ (r.status = 404 → delete_index name r = .ok .alreadyAbsent)
    ∧ (r.status ≠ 204 → r.status ≠ 404 →
        (∃ e, delete_index name r = .error e)
        ∧ ∀ msg, delete_error_message r = .ok msg →
            delete_index name r =
              .error ("Failed to delete index '" ++ name ++ "': " ++ msg)) := by
  refine ⟨fun h => ?_, fun h => ?_, fun h1 h2 => ⟨?_, fun msg hm => ?_⟩⟩
  · simp [delete_index, h]
  · simp [delete_index, h]
  · simp only [delete_index, if_neg h1, if_neg h2]
    cases hm : delete_error_message r with
    | ok m => exact ⟨_, rfl⟩
    | error e => exact ⟨_, rfl⟩
  · simp only [delete_index, if_neg h1, if_neg h2, hm]

/-- Witness for C6 at concrete 204, 404 and 500 responses. -/
theorem C6_delete_index_status_handling_witness :
    delete_index "knowledge-index" ⟨204, Option.none, ""⟩ = .ok .deleted
    ∧ delete_index "knowledge-index" ⟨404, Option.none, ""⟩ = .ok .alreadyAbsent
    ∧ delete_index "knowledge-index" ⟨500, some (PyVal.dict [("error", PyVal.dict
        [("message", PyVal.str "boom")])]), "raw"⟩
      = .error "Failed to delete index 'knowledge-index': boom" := by
  refine ⟨(C6_delete_index_status_handling "knowledge-index"
      ⟨204, Option.none, ""⟩).1 rfl,
    (C6_delete_index_status_handling "knowledge-index"
      ⟨404, Option.none, ""⟩).2.1 rfl, ?_⟩
  have h := ((C6_delete_index_status_handling "knowledge-index"
    ⟨500, some (PyVal.dict [("error", PyVal.dict
      [("message", PyVal.str "boom")])]), "raw"⟩).2.2
    (by decide) (by decide)).2 "boom" rfl
  exact h

/-- Counterexample to claim C7 ("for every owner identifier … when an owner
identifier is supplied the request body contains a filter clause"): the
supplied identifier `""` is falsy in Python, so `vector_search` adds no
`filter` key at all. -/
theorem C7_vector_search_filter_counterexample :
    dget (vector_search_body [] 5 (some "")) "filter" = Option.none := rfl

/-- Claim C7 (amended): when a non-empty owner identifier is supplied, the
request body is exactly the identifier-free body extended (at the end) with
the filter entry `userId eq '<id>'` — so the rest of the body is unchanged
by the filter; when the identifier is omitted the body has no `filter` key;
and an empty-string identifier behaves like an omitted one. -/
theorem C7_vector_search_filter (embedding : List ℚ) (top_k : Nat)
    (uid : String) (h : uid ≠ "") :
    vector_search_body embedding top_k (some uid)
      = vector_search_body embedding top_k Option.none ++
        [("filter", SVal.str ("userId eq '" ++ uid ++ "'"))]
    ∧ dget (vector_search_body embedding top_k Option.none) "filter" = Option.none
    ∧ vector_search_body embedding top_k (some "")
      = vector_search_body embedding top_k Option.none := by
  refine ⟨?_, ?_, ?_⟩
  · simp [vector_search_body, h]
  · simp [vector_search_body, dget]
  · simp [vector_search_body]

/-- Witness for the amended C7 at the identifier `userXYZ`. -/
theorem C7_vector_search_filter_witness :
    vector_search_body [] 5 (some "userXYZ")
      = vector_search_body [] 5 Option.none ++
        [("filter", SVal.str "userId eq 'userXYZ'")] := by
  have h := (C7_vector_search_filter [] 5 "userXYZ" (by decide)).1
  exact h

/-- Counterexample to claim C8 ("the updated conversation history is
persisted unconditionally, even when a step fails partway through"): when
the embedding step fails, `main` returns before ever reaching
`save_conversation_history`. -/
theorem C8_history_persistence_counterexample :
    user_query_main ⟨.ok "q", .error "boom", .ok (PyVal.dict []), .ok "a"⟩ []
      = Option.none := rfl

/-- Claim C8 (amended): a complete characterisation of when the
orchestrator persists the history.  It persists exactly when the query
load, the embedding and the search all succeed, the search result is a
JSON object whose `value` entry is truthy, and the result-display loop
raises no exception; in that case the history is persisted even when the
chat completion fails (with the user turn appended), and on chat success
with both the user and assistant turns appended.  A query, embedding or
search failure, a non-object search response, a falsy/absent result set,
or a display-loop exception each return without persisting. -/
theorem C8_history_persistence (steps : RunSteps) (stored : List PyVal) :
    ((∃ e, steps.query = Except.error e) →
        user_query_main steps stored = Option.none)
    ∧ ((∃ e, steps.embedding = Except.error e) →
        user_query_main steps stored = Option.none)
    ∧ ((∃ e, steps.search = Except.error e) →
        user_query_main steps stored = Option.none)
    ∧ (∀ uq r, steps.query = .ok uq →
        (∃ emb, steps.embedding = .ok emb) →
        steps.search = .ok r → PyVal.isDict r = false →
        user_query_main steps stored = Option.none)
    ∧ (∀ uq es, steps.query = .ok uq →
        (∃ emb, steps.embedding = .ok emb) →
        steps.search = .ok (.dict es) →
        truthy (dgetD es "value" (.list [])) = false →
        user_query_main steps stored = Option.none)
    ∧ (∀ uq es e, steps.query = .ok uq →
        (∃ emb, steps.embedding = .ok emb) →
        steps.search = .ok (.dict es) →
        truthy (dgetD es "value" (.list [])) = true →
        displayDocs (dgetD es "value" (.list [])) = .error e →
        user_query_main steps stored = Option.none)
    ∧ (∀ uq es err, steps.query = .ok uq →
        (∃ emb, steps.embedding = .ok emb) →
        steps.search = .ok (.dict es) →
        truthy (dgetD es "value" (.list [])) = true →
        (∃ docs, displayDocs (dgetD es "value" (.list [])) = .ok docs) →
        steps.chat = .error err →
        user_query_main steps stored = some (stored ++ [mkMessage "user" uq]))
    ∧ (∀ uq es ans, steps.query = .ok uq →
        (∃ emb, steps.embedding = .ok emb) →
        steps.search = .ok (.dict es) →
        truthy (dgetD es "value" (.list [])) = true →
        (∃ docs, displayDocs (dgetD es "value" (.list [])) = .ok docs) →
        steps.chat = .ok ans →
        user_query_main steps stored
          = some (stored ++ [mkMessage "user" uq, mkMessage "assistant" ans])) := by
  obtain ⟨q, emb, se, ch⟩ := steps
  refine ⟨?_, ?_, ?_, ?_, ?_, ?_, ?_, ?_⟩
  · rintro ⟨e, he⟩
    simp only at he
    simp [user_query_main, he]
  · rintro ⟨e, he⟩
    simp only at he
    subst he
    cases q <;> simp [user_query_main]
  · rintro ⟨e, he⟩
    simp only at he
    subst he
    cases q <;> cases emb <;> simp [user_query_main]
  · rintro uq r hq ⟨embv, hemb⟩ hse hdict
    simp only at hq hemb hse
    subst hq; subst hemb; subst hse
    cases r with
    | dict es => simp [PyVal.isDict] at hdict
    | none_ => simp [user_query_main]
    | bool b => simp [user_query_main]
    | int n => simp [user_query_main]
    | str s => simp [user_query_main]
    | list xs => simp [user_query_main]
  · rintro uq es hq ⟨embv, hemb⟩ hse htr
    simp only at hq hemb hse
    subst hq; subst hemb; subst hse
    simp [user_query_main, htr]
  · rintro uq es e hq ⟨embv, hemb⟩ hse htr hde
    simp only at hq hemb hse
    subst hq; subst hemb; subst hse
    simp [user_query_main, htr, hde]
  · rintro uq es err hq ⟨embv, hemb⟩ hse htr ⟨docs, hdocs⟩ hch
    simp only at hq hemb hse hch
    subst hq; subst hemb; subst hse; subst hch
    simp [user_query_main, htr, hdocs, process_results_with_openai_chat]
  · rintro uq es ans hq ⟨embv, hemb⟩ hse htr ⟨docs, hdocs⟩ hch
    simp only at hq hemb hse hch
    subst hq; subst hemb; subst hse; subst hch
    simp [user_query_main, htr, hdocs, process_results_with_openai_chat,
      List.append_assoc]

/-- Witness for the amended C8: a run whose chat completion fails still
persists the history with the user turn appended; the same run with a
successful chat completion persists both new turns; and an empty result
set returns without persisting. -/
theorem C8_history_persistence_witness :
    user_query_main ⟨.ok "q", .ok [],
        .ok (PyVal.dict [("value", PyVal.list [PyVal.dict [("id", PyVal.str "1"),
          ("type", PyVal.str "t"), ("content", PyVal.str "c"),
          ("metadata", PyVal.str "m")]])]),
        .error "down"⟩ []
      = some [mkMessage "user" "q"]
    ∧ user_query_main ⟨.ok "q", .ok [],
        .ok (PyVal.dict [("value", PyVal.list [PyVal.dict [("id", PyVal.str "1"),
          ("type", PyVal.str "t"), ("content", PyVal.str "c"),
          ("metadata", PyVal.str "m")]])]),
        .ok "fine"⟩ []
      = some [mkMessage "user" "q", mkMessage "assistant" "fine"]
    ∧ user_query_main ⟨.ok "q", .ok [],
        .ok (PyVal.dict [("value", PyVal.list [])]), .ok "fine"⟩ []
      = Option.none := by
  refine ⟨?_, ?_, ?_⟩
  · have h := (C8_history_persistence ⟨.ok "q", .ok [],
        .ok (PyVal.dict [("value", PyVal.list [PyVal.dict [("id", PyVal.str "1"),
          ("type", PyVal.str "t"), ("content", PyVal.str "c"),
          ("metadata", PyVal.str "m")]])]),
        .error "down"⟩ []).2.2.2.2.2.2.1 "q"
      [("value", PyVal.list [PyVal.dict [("id", PyVal.str "1"),
        ("type", PyVal.str "t"), ("content", PyVal.str "c"),
        ("metadata", PyVal.str "m")]])] "down"
      rfl ⟨[], rfl⟩ rfl rfl
      ⟨[PyVal.dict [("id", PyVal.str "1"), ("type", PyVal.str "t"),
        ("content", PyVal.str "c"), ("metadata", PyVal.str "m")]], rfl⟩ rfl
    exact h
  · have h := (C8_history_persistence ⟨.ok "q", .ok [],
        .ok (PyVal.dict [("value", PyVal.list [PyVal.dict [("id", PyVal.str "1"),
          ("type", PyVal.str "t"), ("content", PyVal.str "c"),
          ("metadata", PyVal.str "m")]])]),
        .ok "fine"⟩ []).2.2.2.2.2.2.2 "q"
      [("value", PyVal.list [PyVal.dict [("id", PyVal.str "1"),
        ("type", PyVal.str "t"), ("content", PyVal.str "c"),
        ("metadata", PyVal.str "m")]])] "fine"
      rfl ⟨[], rfl⟩ rfl rfl
      ⟨[PyVal.dict [("id", PyVal.str "1"), ("type", PyVal.str "t"),
        ("content", PyVal.str "c"), ("metadata", PyVal.str "m")]], rfl⟩ rfl
    exact h
  · have h := (C8_history_persistence ⟨.ok "q", .ok [],
        .ok (PyVal.dict [("value", PyVal.list [])]), .ok "fine"⟩ []).2.2.2.2.1 "q"
      [("value", PyVal.list [])] rfl ⟨[], rfl⟩ rfl rfl
    exact h

/-- Counterexample to claim C9 ("every file-loading operation treats a
missing or malformed-JSON file as fatal"): the conversation-history loader
swallows the malformed-JSON error and returns the default empty list
instead of raising. -/
theorem C9_loader_fatality_counterexample :
    load_conversation_history (fun _ => JsonFile.malformed) = PyVal.list [] := rfl

/-- Claim C9 (amended): the submission loader raises `FileNotFoundError`
(naming the path) on a missing file and re-raises the JSON decode error on
malformed JSON, and the user-query loader raises an error naming the path
on a missing file; the conversation-history loader, however, returns the
default empty history — over every file-system state in which its file is
missing or malformed — instead of raising. -/
theorem C9_loader_fatality (path : String) (fs : String → JsonFile) :
    load_submission path .missing = .error (.fileNotFound path)
    ∧ load_submission path .malformed = .error .jsonDecode
    ∧ get_user_query path .missing
      = .error ("Query file '" ++ path ++ "' not found.")
    ∧ (fs CONVERSATION_HISTORY_FILE = .missing →
        load_conversation_history fs = PyVal.list [])
    ∧ (fs CONVERSATION_HISTORY_FILE = .malformed →
        load_conversation_history fs = PyVal.list []) := by
  refine ⟨rfl, rfl, rfl, fun h => ?_, fun h => ?_⟩
  · simp [load_conversation_history, h]
  · simp [load_conversation_history, h]

/-- Witness for the amended C9 at a concrete path and concrete file-system
states. -/
theorem C9_loader_fatality_witness :
    load_submission "RAG/submission.json" .missing
      = .error (.fileNotFound "RAG/submission.json")
    ∧ load_conversation_history (fun _ => JsonFile.missing) = PyVal.list []
    ∧ load_conversation_history (fun _ => JsonFile.malformed) = PyVal.list [] := by
  have h1 := C9_loader_fatality "RAG/submission.json" (fun _ => JsonFile.missing)
  have h2 := C9_loader_fatality "RAG/submission.json" (fun _ => JsonFile.malformed)
  exact ⟨h1.1, h1.2.2.2.1 rfl, h2.2.2.2.2 rfl⟩

theorem decodeHistoryList_encode (msgs : List (String × String)) :
    decodeHistoryList (msgs.map (fun m => mkMessage m.1 m.2)) = some msgs := by
  induction msgs with
  | nil => rfl
  | cons m rest ih =>
    obtain ⟨r, c⟩ := m
    simp only [List.map_cons, mkMessage, decodeHistoryList, decodeMessage] at ih ⊢
    rw [ih]

/-- Claim C10: writing any ordered list of role/content message pairs with
`save_conversation_history` and reading it back with
`load_conversation_history` (no interleaving write) yields exactly the
stored message list, which decodes back to the identical ordered list of
role/content pairs. -/
theorem C10_history_roundtrip (msgs : List (String × String))
    (fs : String → JsonFile) :
    load_conversation_history
        (save_conversation_history (msgs.map (fun m => mkMessage m.1 m.2)) fs)
      = .list (msgs.map (fun m => mkMessage m.1 m.2))
    ∧ decodeHistory (load_conversation_history
        (save_conversation_history (msgs.map (fun m => mkMessage m.1 m.2)) fs))
      = some msgs := by
  have hload : load_conversation_history
      (save_conversation_history (msgs.map (fun m => mkMessage m.1 m.2)) fs)
      = .list (msgs.map (fun m => mkMessage m.1 m.2)) := by
    simp [load_conversation_history, save_conversation_history]
  exact ⟨hload, by
    rw [hload]
    simp [decodeHistory, decodeHistoryList_encode]⟩

end DocumentRAG
